import Mathlib

/-!
Shallow embedding of the bounded-concurrency TCP echo server
(`high-performance-go-server.go` and its variant `unnamed/part_000`).

The embedding has three layers:

* a functional model of the per-connection session handler
  (`runLoop`, `handleConnection`), mirroring `handleConnection` in the Go
  source: the stream is modelled as a finite script of decode outcomes, and
  `time.Now()` as a receive timestamp attached to each decoded message;
* a functional model of `Shutdown` (`Shutdown`, `closeAllConns`), with the
  Go channel-close panic, listener close, registry close-all and the final
  context check modelled explicitly;
* a labelled transition system (`GStep`, `Reach`) for the accept loop
  `acceptConnections` together with the semaphore channel `connSem`
  (occupancy `permits`, capacity `cap`), the one-shot `shutdown` channel and
  the listener, over which the admission and shutdown claims are stated.

Machine-level concerns (goroutine scheduling fairness, real wall-clock
time) are abstracted by nondeterminism in the transition system.
-/

/-- Go struct `Config`: server configuration. Durations are
modelled as natural numbers of nanoseconds. -/
structure Config where
  port : String
  readTimeout : Nat
  writeTimeout : Nat
  maxConnections : Nat
  shutdownTimeout : Nat
  deriving Repr, DecidableEq

/-- A shallow model of the JSON values carried in a message payload. -/
inductive JsonVal where
  | str (s : String)
  | num (n : Int)
  | obj (fields : List (String × String))
  deriving Repr, DecidableEq

/-- Go struct `Message` (the `unnamed/part_000` variant, which
carries all five wire fields): type, payload, time, id, source.
`time.Time` is modelled as a natural-number timestamp. -/
structure Message where
  type : String
  payload : JsonVal
  time : Nat
  id : String
  source : String
  deriving Repr, DecidableEq

/-- The message transform performed by `handleConnection` between decode and
encode (`msg.Time = time.Now()` and nothing else): overwrite the timestamp
with the server's receive time `now`, leaving every other field alone. -/
def processMessage (now : Nat) (m : Message) : Message :=
  { m with time := now }

/-- One event on a session's stream, as seen by `decoder.Decode`:
either a successfully decoded message `m` (with the server receive time
`now` at that instant, and `encodeFails` telling whether the subsequent
`encoder.Encode` of the response fails, carrying the error text), or a
decode error with error text `e` (the text returned by `err.Error()`;
clean end of stream is the text "EOF"). -/
inductive SessEvent where
  | msg (m : Message) (now : Nat) (encodeFails : Option String)
  | readErr (e : String)
  deriving Repr, DecidableEq

/-- How a session's decode/encode loop exited. -/
inductive SessExit where
  | cleanEof
  | decodeFail (e : String)
  | encodeFail (e : String)
  deriving Repr, DecidableEq

/-- The decode/encode loop body of `handleConnection` (the `for` loop):
returns the responses successfully encoded, the log lines emitted, and the
exit cause (`none` when the script ran out without the loop exiting, i.e.
the session is still blocked in `Decode`).

Mirrors: `decoder.Decode` error with text ≠ "EOF" is logged and exits;
text = "EOF" exits silently; on success `msg.Time = time.Now()` then
`encoder.Encode(msg)`, whose failure is logged and exits. -/
def runLoop : List SessEvent → List Message × List String × Option SessExit
  | [] => ([], [], none)
  | .readErr e :: _ =>
      if e = "EOF" then ([], [], some .cleanEof)
      else ([], ["Error decoding message: " ++ e], some (.decodeFail e))
  | .msg m now encodeFails :: rest =>
      match encodeFails with
      | some e => ([], ["Error encoding response: " ++ e], some (.encodeFail e))
      | none =>
          let r := runLoop rest
          (processMessage now m :: r.1, r.2.1, r.2.2)

/-- The requests (with their receive times) for which the loop reaches the
encode step and the encode succeeds: the prefix of decoded messages before
the first exit event. -/
def sentRequests : List SessEvent → List (Message × Nat)
  | [] => []
  | .readErr _ :: _ => []
  | .msg m now encodeFails :: rest =>
      match encodeFails with
      | some _ => []
      | none => (m, now) :: sentRequests rest

/-- A live network connection (`net.Conn`) as the server can affect it:
an identifier, whether it has been closed, the read/write deadlines (a
deadline is only ever present if some code calls `SetReadDeadline` /
`SetWriteDeadline`), and whether its `Close` reports an error. -/
structure ConnState where
  id : Nat
  closed : Bool
  readDeadline : Option Nat
  writeDeadline : Option Nat
  closeFails : Bool
  deriving Repr, DecidableEq

/-- A freshly accepted connection as returned by `listener.Accept`: open,
with no read or write deadline set. -/
def newConn (cid : Nat) (closeFails : Bool) : ConnState :=
  { id := cid, closed := false, readDeadline := none, writeDeadline := none,
    closeFails := closeFails }

/-- Model of `conn.Close()`: marks the connection closed; reports an error exactly
when the connection's close fails.  Deadlines are untouched. -/
def connClose (c : ConnState) : ConnState × Option String :=
  ({ c with closed := true }, if c.closeFails then some "close error" else none)

/-- Go method `addConnection`: insert `cid` into the registry set
(`s.conns[conn] = struct{}{}`; map assignment, so inserting a present key
leaves the set unchanged). -/
def addConnection (conns : List Nat) (cid : Nat) : List Nat :=
  if conns.contains cid then conns else cid :: conns

/-- Go method `removeConnection`: delete `cid` from the registry
set (`delete(s.conns, conn)`; deleting an absent key is a no-op). -/
def removeConnection (conns : List Nat) (cid : Nat) : List Nat :=
  conns.filter (fun c => c ≠ cid)

/-- The result of one run of `handleConnection`: the registry, semaphore
occupancy and log after the run, the connection's final state, the exit
cause (`none` while the session is still blocked in `Decode`), and the
responses encoded back to the client. -/
structure HandlerResult where
  conns : List Nat
  permits : Nat
  logs : List String
  conn : ConnState
  exited : Option SessExit
  responses : List Message
  deriving Repr, DecidableEq

/-- Go method `handleConnection`, run over a stream script.
Mirrors the Go control flow: the deferred block (`conn.Close()`;
`<-s.connSem`; `s.removeConnection(conn)`) runs exactly when the loop
exits; `s.addConnection(conn)` runs first; the body is `runLoop`.  The
return value of the deferred `conn.Close()` is discarded, as in the source.
`cfg` is the server's `s.config`, available to the handler but never read
by it. -/
def handleConnection (cfg : Config) (conns : List Nat) (permits : Nat)
    (logs : List String) (conn : ConnState) (script : List SessEvent) :
    HandlerResult :=
  let conns1 := addConnection conns conn.id
  let r := runLoop script
  match r.2.2 with
  | none =>
      { conns := conns1, permits := permits, logs := logs ++ r.2.1,
        conn := conn, exited := none, responses := r.1 }
  | some e =>
      { conns := removeConnection conns1 conn.id,
        permits := permits - 1,
        logs := logs ++ r.2.1,
        conn := (connClose conn).1,
        exited := some e,
        responses := r.1 }

/-- Result of `close(ch)` on a Go channel whose closed flag is `closed`:
sets the flag, but closing an already-closed channel panics. -/
def closeChan (closed : Bool) : Except String Bool :=
  if closed then .error "close of closed channel" else .ok true

/-- Model of `s.listener.Close()`: the listener ends up closed; an error is
reported when it was already closed. -/
def listenerClose (closed : Bool) : Bool × Option String :=
  (true, if closed then some "use of closed network connection" else none)

/-- The close-all loop inside `Shutdown` (`for conn := range s.conns`):
every handle is closed in turn; a failing `conn.Close()` contributes a
log line and never stops the iteration.  Returns the closed handles and
the log lines for the failures, in order. -/
def closeAllConns : List ConnState → List ConnState × List String
  | [] => ([], [])
  | c :: rest =>
      let r := connClose c
      let rr := closeAllConns rest
      (r.1 :: rr.1,
        (match r.2 with
         | some m => ["Error closing connection: " ++ m]
         | none => []) ++ rr.2)

/-- The value of `ctx.Err()` for an expired `context.WithTimeout`
context, as used in `main`. -/
inductive CtxErr where
  | deadlineExceeded
  deriving Repr, DecidableEq

/-- What a call to `Shutdown` produces: a normal `nil` return, a context
error, or a Go runtime panic. -/
inductive ShutdownResult where
  | ok
  | err (e : CtxErr)
  | panicked (msg : String)
  deriving Repr, DecidableEq

/-- The server state that `Shutdown` reads and writes: the `shutdown`
channel's closed flag, the listener, the registry `s.conns`, the number of
in-flight `handleConnection` goroutines, and the log. -/
structure ShutdownState where
  shutdownClosed : Bool
  listenerClosed : Bool
  conns : List ConnState
  running : Nat
  logs : List String
  deriving Repr, DecidableEq

/-- Go method `Shutdown`, with `ctxExpired` telling whether the
deadline context has expired at the final `select` check.  In order:
`close(s.shutdown)` (panics if already closed, aborting the call),
`s.listener.Close()` (error logged), the close-all loop over `s.conns`
(errors logged), then `select { case <-ctx.Done(): return ctx.Err();
default: return nil }`.  It never touches the running-goroutine count. -/
def Shutdown (st : ShutdownState) (ctxExpired : Bool) :
    ShutdownState × ShutdownResult :=
  match closeChan st.shutdownClosed with
  | .error m => (st, .panicked m)
  | .ok _ =>
      let st1 : ShutdownState := { st with shutdownClosed := true }
      let lc := listenerClose st1.listenerClosed
      let st2 : ShutdownState :=
        { st1 with
          listenerClosed := lc.1
          logs := st1.logs ++ (match lc.2 with
            | some m => ["Error closing listener: " ++ m]
            | none => []) }
      let ca := closeAllConns st2.conns
      let st3 : ShutdownState := { st2 with conns := ca.1, logs := st2.logs ++ ca.2 }
      if ctxExpired then (st3, .err .deadlineExceeded) else (st3, .ok)

/-- Where the `acceptConnections` goroutine is in its loop: at the outer
`select` (racing shutdown against a semaphore send), blocked in
`s.listener.Accept` with a permit held, or returned. -/
inductive LoopPhase where
  | select
  | accepting
  | finished
  deriving Repr, DecidableEq

/-- Global server state for the admission subsystem: semaphore capacity
(`cap(s.connSem) = MaxConnections`) and occupancy (`permits`), the number
of running `handleConnection` goroutines (each owns one permit), the
accept loop's phase, and the shutdown-channel / listener flags. -/
structure GState where
  cap : Nat
  permits : Nat
  sessions : Nat
  loop : LoopPhase
  shutdownFired : Bool
  listenerClosed : Bool
  deriving Repr, DecidableEq

/-- Go function `NewServer`: empty semaphore of capacity
`config.MaxConnections`, open shutdown channel, no sessions; the accept
loop (started by `Start`) sits at its `select`. -/
def NewServer (cfg : Config) : GState :=
  { cap := cfg.maxConnections, permits := 0, sessions := 0, loop := .select,
    shutdownFired := false, listenerClosed := false }

/-- The observable transitions of the admission subsystem. -/
inductive Label where
  | observeShutdown
  | acquire
  | acceptOk
  | acceptFailShutdown
  | acceptFailTransient
  | sessEnd
  | shutdownCall
  deriving Repr, DecidableEq

/-- One step of the admission subsystem, mirroring `acceptConnections`,
`handleConnection`'s permit release and `Shutdown`'s signal:

* `observeShutdown`: the outer `select` takes `<-s.shutdown` (ready only
  once the channel is closed) and the loop returns;
* `acquire`: the outer `select` completes `s.connSem <- struct{}{}`
  (ready only while occupancy is below capacity — this is the admission
  gate) and proceeds to `Accept`;
* `acceptOk`: `Accept` returns a connection (impossible once the listener
  is closed) and a `handleConnection` goroutine is spawned with the
  permit;
* `acceptFailShutdown`: `Accept` fails and the inner `select` sees the
  closed shutdown channel: return, silently, permit not released;
* `acceptFailTransient`: `Accept` fails, shutdown not signalled: the
  permit is released (`<-s.connSem`) and the loop continues;
* `sessEnd`: a `handleConnection` goroutine finishes and its deferred
  `<-s.connSem` releases its permit;
* `shutdownCall`: a first `Shutdown` call closes the shutdown channel and
  the listener. -/
inductive GStep : Label → GState → GState → Prop where
  | observeShutdown {s : GState} :
      s.loop = .select → s.shutdownFired = true →
      GStep .observeShutdown s { s with loop := .finished }
  | acquire {s : GState} :
      s.loop = .select → s.permits < s.cap →
      GStep .acquire s { s with permits := s.permits + 1, loop := .accepting }
  | acceptOk {s : GState} :
      s.loop = .accepting → s.listenerClosed = false →
      GStep .acceptOk s { s with sessions := s.sessions + 1, loop := .select }
  | acceptFailShutdown {s : GState} :
      s.loop = .accepting → s.shutdownFired = true →
      GStep .acceptFailShutdown s { s with loop := .finished }
  | acceptFailTransient {s : GState} :
      s.loop = .accepting → s.shutdownFired = false →
      GStep .acceptFailTransient s
        { s with permits := s.permits - 1, loop := .select }
  | sessEnd {s : GState} :
      0 < s.sessions →
      GStep .sessEnd s
        { s with sessions := s.sessions - 1, permits := s.permits - 1 }
  | shutdownCall {s : GState} :
      s.shutdownFired = false →
      GStep .shutdownCall s
        { s with shutdownFired := true, listenerClosed := true }

/-- Reflexive-transitive closure of `GStep`: the states an execution can
reach. -/
inductive Reach : GState → GState → Prop where
  | refl (s : GState) : Reach s s
  | tail {s t u : GState} (l : Label) : Reach s t → GStep l t u → Reach s u

/-- The state with `n` active sessions, each holding its permit, accept
loop back at its `select`. -/
def activeState (cap n : Nat) : GState :=
  { cap := cap, permits := n, sessions := n, loop := .select,
    shutdownFired := false, listenerClosed := false }

/-- What one pass through the accept-error branch does with the loop. -/
inductive AcceptOutcome where
  | terminate
  | continueLoop
  deriving Repr, DecidableEq

/-- The accept-error branch of `acceptConnections` (the inner `select`
entered when `s.listener.Accept` returns an error, while the loop holds a
just-acquired permit): if the shutdown channel is closed, return with no
log line; otherwise log the error, release the permit (`<-s.connSem`) and
continue the loop. -/
def onAcceptError (shutdownFired : Bool) (permits : Nat) (logs : List String)
    (errMsg : String) : AcceptOutcome × Nat × List String :=
  if shutdownFired then (.terminate, permits, logs)
  else (.continueLoop, permits - 1,
    logs ++ ["Error accepting connection: " ++ errMsg])

/-- Claim C3: for every message successfully decoded by the session
handler, the response it encodes is the decoded message with only the
timestamp overwritten to the server's receive time; type, payload, id and
source pass through unchanged.  Stated both per message (the transform
`processMessage` changes only `time`) and for the whole loop (the encoded
responses are exactly the decoded requests, each with its timestamp
overwritten). -/
theorem echo_preserves_fields_overwrites_time :
    (∀ (now : Nat) (m : Message),
        (processMessage now m).type = m.type ∧
        (processMessage now m).payload = m.payload ∧
        (processMessage now m).id = m.id ∧
        (processMessage now m).source = m.source ∧
        (processMessage now m).time = now) ∧
    (∀ script : List SessEvent,
        (runLoop script).1 =
          (sentRequests script).map (fun p => processMessage p.2 p.1)) := by
  refine ⟨fun now m => ⟨rfl, rfl, rfl, rfl, rfl⟩, fun script => ?_⟩
  induction script with
  | nil => rfl
  | cons ev rest ih =>
      cases ev with
      | readErr e =>
          by_cases h : e = "EOF" <;> simp [runLoop, sentRequests, h]
      | msg m now encodeFails =>
          cases encodeFails with
          | none => simp [runLoop, sentRequests, ih]
          | some e => simp [runLoop, sentRequests]

/-- Claim C4: the handler adds the connection's handle to the registry on
entry, and on every exit path (clean EOF, decode error, encode error —
`e` ranges over all of them) it closes the stream, releases its admission
permit and removes the handle from the registry; while the session is
still running the handle stays registered. -/
theorem handler_cleanup_on_every_exit (cfg : Config) (conns : List Nat)
    (permits : Nat) (logs : List String) (conn : ConnState)
    (script : List SessEvent) (e : SessExit)
    (hp : 0 < permits) :
    ((handleConnection cfg conns permits logs conn script).exited = some e →
      (handleConnection cfg conns permits logs conn script).conn.closed = true ∧
      conn.id ∉ (handleConnection cfg conns permits logs conn script).conns ∧
      (handleConnection cfg conns permits logs conn script).permits + 1 = permits) ∧
    ((handleConnection cfg conns permits logs conn script).exited = none →
      conn.id ∈ (handleConnection cfg conns permits logs conn script).conns) := by
  cases hex : (runLoop script).2.2 with
  | none =>
      refine ⟨fun h => ?_, fun _ => ?_⟩
      · simp [handleConnection, hex] at h
      · simp only [handleConnection, hex, addConnection]
        by_cases hc : conns.contains conn.id <;> simp_all
  | some ex =>
      refine ⟨fun _ => ⟨?_, ?_, ?_⟩, fun h => ?_⟩
      · simp [handleConnection, hex, connClose]
      · simp [handleConnection, hex, removeConnection]
      · simp only [handleConnection, hex]
        omega
      · simp [handleConnection, hex] at h

/-- Witness for C4 at a concrete input: one decoded message followed by a
clean EOF, one held permit. -/
theorem handler_cleanup_on_every_exit_witness :
    (0:Nat) < 1 ∧
    (((handleConnection ⟨"8080", 30, 30, 5, 30⟩ [] 1 [] (newConn 0 false)
        [.readErr "EOF"]).exited = some .cleanEof →
      (handleConnection ⟨"8080", 30, 30, 5, 30⟩ [] 1 [] (newConn 0 false)
        [.readErr "EOF"]).conn.closed = true ∧
      (0:Nat) ∉ (handleConnection ⟨"8080", 30, 30, 5, 30⟩ [] 1 [] (newConn 0 false)
        [.readErr "EOF"]).conns ∧
      (handleConnection ⟨"8080", 30, 30, 5, 30⟩ [] 1 [] (newConn 0 false)
        [.readErr "EOF"]).permits + 1 = 1) ∧
    ((handleConnection ⟨"8080", 30, 30, 5, 30⟩ [] 1 [] (newConn 0 false)
        [.readErr "EOF"]).exited = none →
      (0:Nat) ∈ (handleConnection ⟨"8080", 30, 30, 5, 30⟩ [] 1 [] (newConn 0 false)
        [.readErr "EOF"]).conns)) :=
  ⟨by decide,
   handler_cleanup_on_every_exit ⟨"8080", 30, 30, 5, 30⟩ [] 1 []
     (newConn 0 false) [.readErr "EOF"] .cleanEof (by decide)⟩

/-- Claim C9: a decode error whose text is "EOF" (clean end of stream)
ends the session silently — no log line — while any other decode error is
logged; in both cases the loop exits at once, the remainder of the stream
is never consumed (no retry), and only this connection's registry entry is
affected. -/
theorem eof_silent_other_decode_errors_logged (e : String)
    (rest : List SessEvent) (cfg : Config) (conns : List Nat) (permits : Nat)
    (logs : List String) (conn : ConnState) (j : Nat)
    (hj : j ≠ conn.id) :
    (e = "EOF" → runLoop (.readErr e :: rest) = ([], [], some .cleanEof)) ∧
    (e ≠ "EOF" → runLoop (.readErr e :: rest) =
        ([], ["Error decoding message: " ++ e], some (.decodeFail e))) ∧
    runLoop (.readErr e :: rest) = runLoop [.readErr e] ∧
    (j ∈ (handleConnection cfg conns permits logs conn
            (.readErr e :: rest)).conns ↔ j ∈ conns) := by
  refine ⟨fun h => by simp [runLoop, h], fun h => by simp [runLoop, h], ?_, ?_⟩
  · by_cases h : e = "EOF" <;> simp [runLoop, h]
  · have hex : ∃ ex, (runLoop (.readErr e :: rest)).2.2 = some ex := by
      by_cases h : e = "EOF" <;> simp [runLoop, h]
    obtain ⟨ex, hex⟩ := hex
    simp only [handleConnection, hex, removeConnection, addConnection,
      List.mem_filter]
    by_cases hc : conns.contains conn.id <;> simp_all

/-- Witness for C9 at a concrete input: decode error "bad json" on a
stream with a trailing event, registry holding another session's id 7. -/
theorem eof_silent_other_decode_errors_logged_witness :
    (7:Nat) ≠ (newConn 0 false).id ∧
    ((("bad json":String) = "EOF" →
        runLoop [.readErr "bad json", .readErr "EOF"] = ([], [], some .cleanEof)) ∧
     (("bad json":String) ≠ "EOF" →
        runLoop [.readErr "bad json", .readErr "EOF"] =
          ([], ["Error decoding message: " ++ "bad json"],
            some (.decodeFail "bad json"))) ∧
     runLoop [.readErr "bad json", .readErr "EOF"] = runLoop [.readErr "bad json"] ∧
     ((7:Nat) ∈ (handleConnection ⟨"8080", 30, 30, 5, 30⟩ [7] 1 []
          (newConn 0 false) [.readErr "bad json", .readErr "EOF"]).conns ↔
        (7:Nat) ∈ [7])) :=
  ⟨by decide,
   eof_silent_other_decode_errors_logged "bad json" [.readErr "EOF"]
     ⟨"8080", 30, 30, 5, 30⟩ [7] 1 [] (newConn 0 false) 7 (by decide)⟩

/-- Claim C10: the `ReadTimeout` and `WriteTimeout` carried in the server
configuration are never applied to any accepted connection: the handler's
behaviour is identical under any two configurations, a freshly accepted
connection has no deadlines, and the handler (including its deferred
`conn.Close()`) leaves the deadlines exactly as it found them — so they
stay unset forever. -/
theorem read_write_timeouts_never_applied (cfg cfg' : Config)
    (conns : List Nat) (permits : Nat) (logs : List String) (conn : ConnState)
    (script : List SessEvent) :
    handleConnection cfg conns permits logs conn script =
      handleConnection cfg' conns permits logs conn script ∧
    (∀ (cid : Nat) (cf : Bool), (newConn cid cf).readDeadline = none ∧
      (newConn cid cf).writeDeadline = none) ∧
    (handleConnection cfg conns permits logs conn script).conn.readDeadline =
      conn.readDeadline ∧
    (handleConnection cfg conns permits logs conn script).conn.writeDeadline =
      conn.writeDeadline := by
  refine ⟨rfl, fun cid cf => ⟨rfl, rfl⟩, ?_, ?_⟩ <;>
    · cases hex : (runLoop script).2.2 <;> simp [handleConnection, hex, connClose]

/-- Counterexample to claim C5 as stated: during shutdown, a failed
`conn.Close()` produces a log line, but the collection of close failures
is NOT returned to the caller — `Shutdown` on a registry whose single
handle fails to close returns plain success, indistinguishable from the
run in which the close succeeded. -/
theorem shutdown_result_omits_close_failures :
    (closeAllConns [newConn 0 true]).2 =
      ["Error closing connection: " ++ "close error"] ∧
    (Shutdown ⟨false, false, [newConn 0 true], 0, []⟩ false).2 =
      ShutdownResult.ok ∧
    (Shutdown ⟨false, false, [newConn 0 false], 0, []⟩ false).2 =
      ShutdownResult.ok :=
  ⟨rfl, rfl, rfl⟩

/-- Claim C5 as amended: the shutdown close-all step attempts to close
every one of the k registered handles even if some closes fail (a failed
close never prevents closing the remaining handles), and every failure is
recorded in the log without omission — one log line per failing handle —
but the failures are only logged, never returned to the caller. -/
theorem closeall_attempts_all_failures_logged (conns : List ConnState)
    (st : ShutdownState) (ctxExpired : Bool) :
    ((closeAllConns conns).1.length = conns.length ∧
     (∀ c ∈ (closeAllConns conns).1, c.closed = true) ∧
     (closeAllConns conns).2.length =
       (conns.filter (fun c => c.closeFails)).length) ∧
    (st.shutdownClosed = false →
      (Shutdown st ctxExpired).1.logs =
        (st.logs ++ (match (listenerClose st.listenerClosed).2 with
          | some m => ["Error closing listener: " ++ m]
          | none => [])) ++ (closeAllConns st.conns).2) := by
  constructor
  · induction conns with
    | nil => simp [closeAllConns]
    | cons c rest ih =>
        obtain ⟨h1, h2, h3⟩ := ih
        refine ⟨by simp [closeAllConns, h1], ?_, ?_⟩
        · intro x hx
          simp only [closeAllConns, List.mem_cons] at hx
          rcases hx with hx | hx
          · subst hx; rfl
          · exact h2 x hx
        · by_cases hc : c.closeFails <;>
            simp [closeAllConns, connClose, hc, h3, List.filter_cons]
  · intro h
    simp only [Shutdown, closeChan, h]
    cases ctxExpired <;> simp [listenerClose]

/-- Witness for the amended C5 at a concrete input: one registered handle
whose close fails, open listener, pre-existing log line "start". -/
theorem closeall_attempts_all_failures_logged_witness :
    (⟨false, false, [newConn 0 true], 2, ["start"]⟩ :
        ShutdownState).shutdownClosed = false ∧
    (Shutdown ⟨false, false, [newConn 0 true], 2, ["start"]⟩ false).1.logs =
      (["start"] ++ []) ++ ["Error closing connection: " ++ "close error"] :=
  ⟨rfl,
   (closeall_attempts_all_failures_logged [newConn 0 true]
     ⟨false, false, [newConn 0 true], 2, ["start"]⟩ false).2 rfl⟩

/-- Claim C6: on a first call, `Shutdown` returns success exactly when the
deadline context has not expired at its final check and a DeadlineExceeded
error when it has; it never waits for in-flight session-handler tasks —
the running-task count is untouched and the returned value is independent
of it. -/
theorem shutdown_deadline_check_no_wait (st : ShutdownState)
    (ctxExpired : Bool) (h : st.shutdownClosed = false) :
    (Shutdown st ctxExpired).2 =
      (if ctxExpired then ShutdownResult.err .deadlineExceeded
       else ShutdownResult.ok) ∧
    (Shutdown st ctxExpired).1.running = st.running ∧
    (∀ n, (Shutdown { st with running := n } ctxExpired).2 =
      (Shutdown st ctxExpired).2) := by
  refine ⟨?_, ?_, fun n => ?_⟩ <;>
    · simp only [Shutdown, closeChan, h]
      cases ctxExpired <;> simp

/-- Witness for C6 at a concrete input: expired deadline, five running
session tasks. -/
theorem shutdown_deadline_check_no_wait_witness :
    (⟨false, false, [], 5, []⟩ : ShutdownState).shutdownClosed = false ∧
    ((Shutdown ⟨false, false, [], 5, []⟩ true).2 =
       (if true then ShutdownResult.err .deadlineExceeded
        else ShutdownResult.ok) ∧
     (Shutdown ⟨false, false, [], 5, []⟩ true).1.running =
       (⟨false, false, [], 5, []⟩ : ShutdownState).running ∧
     (∀ n, (Shutdown { (⟨false, false, [], 5, []⟩ : ShutdownState) with
         running := n } true).2 =
       (Shutdown ⟨false, false, [], 5, []⟩ true).2)) :=
  ⟨rfl, shutdown_deadline_check_no_wait ⟨false, false, [], 5, []⟩ true rfl⟩

/-- Counterexample to claim C7 as stated: a second call to `Shutdown` is
not a harmless no-op — it panics (`close` of the already-closed `shutdown`
channel), contradicting "does not fail, panic, or reverse". -/
theorem second_shutdown_call_panics :
    (Shutdown ⟨false, false, [], 0, []⟩ false).1.shutdownClosed = true ∧
    (Shutdown (Shutdown ⟨false, false, [], 0, []⟩ false).1 false).2 =
      ShutdownResult.panicked "close of closed channel" :=
  ⟨rfl, rfl⟩

/-- Claim C7 as amended: the shutdown signal is one-shot and monotonic —
after any call to `Shutdown` the signal is fired, a first call (signal not
yet fired) never panics, and the signalled state is never reversed; but a
subsequent call is not a no-op: it panics on closing the already-closed
shutdown channel (leaving the signal fired). -/
theorem shutdown_signal_monotonic_one_shot (st : ShutdownState) (e : Bool) :
    (Shutdown st e).1.shutdownClosed = true ∧
    (st.shutdownClosed = false →
      ∀ m, (Shutdown st e).2 ≠ ShutdownResult.panicked m) ∧
    (st.shutdownClosed = true →
      (Shutdown st e).2 = ShutdownResult.panicked "close of closed channel" ∧
      (Shutdown st e).1 = st) := by
  cases h : st.shutdownClosed with
  | true =>
      refine ⟨?_, fun hf => by simp [h] at hf,
        fun _ => ⟨?_, ?_⟩⟩ <;> simp [Shutdown, closeChan, h]
  | false =>
      refine ⟨?_, fun _ m => ?_, fun ht => by simp [h] at ht⟩ <;>
        · simp only [Shutdown, closeChan, h]
          cases e <;> simp

/-- Witness for the amended C7 at a concrete input: calling `Shutdown` on
a state whose shutdown channel is already closed. -/
theorem shutdown_signal_monotonic_one_shot_witness :
    (Shutdown ⟨true, true, [], 0, []⟩ false).2 =
      ShutdownResult.panicked "close of closed channel" ∧
    (Shutdown ⟨true, true, [], 0, []⟩ false).1 =
      (⟨true, true, [], 0, []⟩ : ShutdownState) :=
  (shutdown_signal_monotonic_one_shot ⟨true, true, [], 0, []⟩ false).2.2 rfl

theorem gstep_cap_eq {l : Label} {s t : GState} (h : GStep l s t) :
    t.cap = s.cap := by
  cases h <;> rfl

theorem gstep_permits_le {l : Label} {s t : GState} (h : GStep l s t)
    (hs : s.permits ≤ s.cap) : t.permits ≤ t.cap := by
  cases h <;> simp_all <;> omega

theorem reach_cap_eq {s t : GState} (h : Reach s t) : t.cap = s.cap := by
  induction h with
  | refl => rfl
  | tail l hr hs ih => rw [gstep_cap_eq hs, ih]

theorem reach_permits_le {s t : GState} (h : Reach s t)
    (hs : s.permits ≤ s.cap) : t.permits ≤ t.cap := by
  induction h with
  | refl => exact hs
  | tail l hr hstep ih => exact gstep_permits_le hstep ih

theorem reach_activeState (cfg : Config) :
    ∀ n, n ≤ cfg.maxConnections →
      Reach (NewServer cfg) (activeState cfg.maxConnections n) := by
  intro n
  induction n with
  | zero => intro _; exact Reach.refl _
  | succ k ih =>
      intro hk
      have step1 : GStep .acquire (activeState cfg.maxConnections k)
          { cap := cfg.maxConnections, permits := k + 1, sessions := k,
            loop := .accepting, shutdownFired := false,
            listenerClosed := false } :=
        GStep.acquire rfl hk
      have step2 : GStep .acceptOk
          ({ cap := cfg.maxConnections, permits := k + 1, sessions := k,
             loop := .accepting, shutdownFired := false,
             listenerClosed := false } : GState)
          (activeState cfg.maxConnections (k + 1)) :=
        GStep.acceptOk rfl rfl
      exact Reach.tail .acceptOk (Reach.tail .acquire (ih (by omega)) step1) step2

/-- Claim C1: the number of outstanding admission permits never exceeds
`MaxConnections` in any reachable state; for every `N ≤` capacity there is
an execution with `N` simultaneous active sessions (each holding its
permit); when the gate is full no further permit can be acquired (the
`(capacity+1)`-th attempt is held back); and once an active session ends
and releases its permit, occupancy drops below capacity and the accept
loop's acquire step is enabled again. -/
theorem admission_gate_bounded (cfg : Config) :
    (∀ t, Reach (NewServer cfg) t → t.permits ≤ cfg.maxConnections) ∧
    (∀ n, n ≤ cfg.maxConnections →
      ∃ t, Reach (NewServer cfg) t ∧ t.sessions = n ∧ t.permits = n) ∧
    (∀ s t : GState, s.permits = s.cap → ¬ GStep .acquire s t) ∧
    (∀ s t : GState, s.permits = s.cap → 0 < s.cap →
      GStep .sessEnd s t → t.permits < t.cap) ∧
    (∀ t : GState, t.loop = .select → t.permits < t.cap →
      ∃ u, GStep .acquire t u) := by
  refine ⟨?_, ?_, ?_, ?_, ?_⟩
  · intro t ht
    have h1 := reach_permits_le ht (by simp [NewServer])
    have h2 := reach_cap_eq ht
    simp [NewServer] at h2
    omega
  · intro n hn
    exact ⟨activeState cfg.maxConnections n, reach_activeState cfg n hn,
      rfl, rfl⟩
  · intro s t hfull hstep
    cases hstep with
    | acquire h1 h2 => omega
  · intro s t hfull hcap hstep
    cases hstep with
    | sessEnd h1 => simp; omega
  · intro t hsel hlt
    exact ⟨_, GStep.acquire hsel hlt⟩

/-- Witness for C1 at a concrete input: capacity 2, both permits taken by
two simultaneous active sessions. -/
theorem admission_gate_bounded_witness :
    (2:Nat) ≤ (⟨"8080", 30, 30, 2, 30⟩ : Config).maxConnections ∧
    (∃ t, Reach (NewServer ⟨"8080", 30, 30, 2, 30⟩) t ∧
      t.sessions = 2 ∧ t.permits = 2) :=
  ⟨by decide,
   (admission_gate_bounded ⟨"8080", 30, 30, 2, 30⟩).2.1 2 (by decide)⟩

theorem gstep_shutdown_mono {l : Label} {s t : GState} (h : GStep l s t)
    (h1 : s.shutdownFired = true) (h2 : s.listenerClosed = true) :
    t.shutdownFired = true ∧ t.listenerClosed = true ∧
    t.sessions ≤ s.sessions := by
  cases h <;> simp_all

/-- Claim C2: once the shutdown signal has fired and the listener is
closed, no step of any further execution is an accept (`acceptOk` is
impossible and the session count never grows again); each remaining loop
iteration either observes the shutdown signal and terminates (from the
outer `select`) or acquires and then sees `Accept` fail against the closed
listener and terminates. -/
theorem no_accept_after_shutdown :
    (∀ (l : Label) (s t : GState), GStep l s t →
      s.shutdownFired = true → s.listenerClosed = true →
      l ≠ Label.acceptOk ∧
      t.shutdownFired = true ∧ t.listenerClosed = true ∧
      t.sessions ≤ s.sessions ∧
      (s.loop = .accepting → l ≠ Label.sessEnd → t.loop = .finished) ∧
      (s.loop = .select → l ≠ Label.sessEnd →
        t.loop = .finished ∨ t.loop = .accepting)) ∧
    (∀ s t : GState, s.shutdownFired = true → s.listenerClosed = true →
      Reach s t → t.sessions ≤ s.sessions ∧
      t.shutdownFired = true ∧ t.listenerClosed = true) := by
  constructor
  · intro l s t hstep h1 h2
    cases hstep <;> simp_all
  · intro s t h1 h2 hr
    induction hr with
    | refl => exact ⟨le_refl _, h1, h2⟩
    | tail l hr hstep ih =>
        obtain ⟨ihs, ihf, ihl⟩ := ih
        obtain ⟨hf, hl, hs⟩ := gstep_shutdown_mono hstep ihf ihl
        exact ⟨le_trans hs ihs, hf, hl⟩

/-- Witness for C2 at a concrete input: a drained state (shutdown fired,
listener closed, accept loop at its `select` with one running session)
taking the `observeShutdown` step. -/
theorem no_accept_after_shutdown_witness :
    GStep .observeShutdown
      (⟨2, 1, 1, .select, true, true⟩ : GState)
      (⟨2, 1, 1, .finished, true, true⟩ : GState) ∧
    (Label.observeShutdown ≠ Label.acceptOk ∧
      (⟨2, 1, 1, .finished, true, true⟩ : GState).shutdownFired = true ∧
      (⟨2, 1, 1, .finished, true, true⟩ : GState).listenerClosed = true ∧
      (⟨2, 1, 1, .finished, true, true⟩ : GState).sessions ≤ 1 ∧
      ((⟨2, 1, 1, .select, true, true⟩ : GState).loop = .accepting →
        Label.observeShutdown ≠ Label.sessEnd →
        (⟨2, 1, 1, .finished, true, true⟩ : GState).loop = .finished) ∧
      ((⟨2, 1, 1, .select, true, true⟩ : GState).loop = .select →
        Label.observeShutdown ≠ Label.sessEnd →
        (⟨2, 1, 1, .finished, true, true⟩ : GState).loop = .finished ∨
        (⟨2, 1, 1, .finished, true, true⟩ : GState).loop = .accepting)) :=
  have hstep : GStep .observeShutdown
      (⟨2, 1, 1, .select, true, true⟩ : GState)
      (⟨2, 1, 1, .finished, true, true⟩ : GState) :=
    GStep.observeShutdown rfl rfl
  ⟨hstep, no_accept_after_shutdown.1 .observeShutdown
    (⟨2, 1, 1, .select, true, true⟩ : GState)
    (⟨2, 1, 1, .finished, true, true⟩ : GState) hstep rfl rfl⟩

/-- Claim C8: when `Accept` fails with a permit held, the loop terminates
silently (no log) if shutdown has been signalled; otherwise it logs the
error, releases exactly the just-acquired permit, and continues — in the
transition system the transient-failure step always returns to the outer
`select` (the loop survives), never to `finished`. -/
theorem accept_failure_tolerant (sd : Bool) (permits : Nat)
    (logs : List String) (errMsg : String) (hp : 0 < permits) :
    (sd = true →
      onAcceptError sd permits logs errMsg = (.terminate, permits, logs)) ∧
    (sd = false →
      (onAcceptError sd permits logs errMsg).1 = .continueLoop ∧
      (onAcceptError sd permits logs errMsg).2.1 + 1 = permits ∧
      (onAcceptError sd permits logs errMsg).2.2 =
        logs ++ ["Error accepting connection: " ++ errMsg]) ∧
    (∀ s t : GState, GStep .acceptFailTransient s t →
      t.loop = .select ∧ t.sessions = s.sessions ∧
      (0 < s.permits → t.permits + 1 = s.permits)) ∧
    (∀ s t : GState, GStep .acceptFailShutdown s t → t.loop = .finished) := by
  refine ⟨fun h => by simp [onAcceptError, h],
    fun h => ⟨by simp [onAcceptError, h], by simp [onAcceptError, h]; omega,
      by simp [onAcceptError, h]⟩, ?_, ?_⟩
  · intro s t hstep
    cases hstep with
    | acceptFailTransient h1 h2 => exact ⟨rfl, rfl, fun hpos => by simp; omega⟩
  · intro s t hstep
    cases hstep with
    | acceptFailShutdown h1 h2 => rfl

/-- Witness for C8 at a concrete input: one held permit, transient accept
failure outside shutdown. -/
theorem accept_failure_tolerant_witness :
    (0:Nat) < 1 ∧
    ((onAcceptError false 1 [] "too many open files").1 = .continueLoop ∧
      (onAcceptError false 1 [] "too many open files").2.1 + 1 = 1 ∧
      (onAcceptError false 1 [] "too many open files").2.2 =
        [] ++ ["Error accepting connection: " ++ "too many open files"]) :=
  ⟨by decide,
   (accept_failure_tolerant false 1 [] "too many open files" (by decide)).2.1
     rfl⟩
